import Mathlib

/-!
Verification of the prediction-and-classification core of the solar power
generation predictor (`src/app.py`).

The app collects nine weather measurements, assembles them in a fixed
feature order, passes them through an externally supplied scaler and
regression model, and classifies the resulting scalar into a three-tier
power level with a display color.  The embedding below models:

* `power_level_and_color` (app.py lines 17-23): the threshold classifier;
* `FEATURES` (lines 51-61): the fixed feature ordering;
* the predict button handler (lines 128-140): row assembly
  (`[user_vals[f] for f in FEATURES]`), scaling, inference, taking the
  first element of the model output, and storing the scalar in
  `st.session_state.pred`.

Numeric values are modelled as rationals; every comparison the claims
exercise (against the exact thresholds 2000 and 4000) has identical
semantics over the rationals and over IEEE doubles at these magnitudes.
The scaler and the model are opaque artifacts; an exception raised by
either is modelled by the function returning `none`.
-/

/-- `power_level_and_color` from app.py lines 17-23: maps a predicted
scalar to a `(level, color)` pair using the fixed thresholds 2000 and
4000. -/
def power_level_and_color (pred : ℚ) : String × String :=
  if pred < 2000 then ("Low", "#ff6b6b")
  else if pred < 4000 then ("Moderate", "#f4c542")
  else ("High", "#4cd137")

/-- Numeric rank of a power level, encoding the order Low < Moderate < High
used by the implicit monotonicity claim. -/
def levelRank : String → ℕ
  | "Low" => 0
  | "Moderate" => 1
  | "High" => 2
  | _ => 3

/-- `FEATURES` from app.py lines 51-61: the fixed feature order, which
must match the order used during training. -/
def FEATURES : List String :=
  [ "distance-to-solar-noon",
    "temperature",
    "wind-direction",
    "wind-speed",
    "sky-cover",
    "visibility",
    "humidity",
    "average-wind-speed-(period)",
    "average-pressure-(period)" ]

/-- The failure modes of one predict invocation: a missing feature key
(Python `KeyError` on `user_vals[f]`, the spec's `MissingFeatureError`),
an exception from the scaler or the model (the spec's `InferenceError`),
and an out-of-bounds index when the model returns an empty sequence
(Python `IndexError` on `model.predict(X_scaled)[0]`). -/
inductive PredictError where
  | missingFeature (key : String)
  | inferenceError
  | indexError
  deriving DecidableEq, Repr

/-- `PredictionResult` of the spec: the scalar together with its derived
level and color, as produced by the button handler and the classifier. -/
structure PredictionResult where
  value : ℚ
  level : String
  color : String
  deriving DecidableEq, Repr

/-- Looks one feature key up in the input mapping; a missing key fails the
whole assembly, mirroring the `KeyError` of `user_vals[f]`. -/
def lookupFeature (inputs : String → Option ℚ) (f : String) :
    Except PredictError ℚ :=
  match inputs f with
  | some v => .ok v
  | none => .error (.missingFeature f)

/-- Left-to-right fallible map over the feature names: the first failing
lookup aborts the whole comprehension, exactly as the Python list
comprehension raises on the first missing key. -/
def collectRow (inputs : String → Option ℚ) :
    List String → Except PredictError (List ℚ)
  | [] => .ok []
  | f :: fs =>
    match lookupFeature inputs f with
    | .error e => .error e
    | .ok v =>
      match collectRow inputs fs with
      | .error e => .error e
      | .ok vs => .ok (v :: vs)

/-- Row assembly from app.py line 130: `[user_vals[f] for f in FEATURES]`,
reading the input mapping in the fixed `FEATURES` order. -/
def assembleRow (inputs : String → Option ℚ) :
    Except PredictError (List ℚ) :=
  collectRow inputs FEATURES

/-- The predict operation of app.py lines 130-136 without the session-state
write: assemble the row, scale it (`scaler.transform(row)`), run the model
(`model.predict(X_scaled)`), take the first element of the output
(`[0]`), and classify it with `power_level_and_color`. -/
def predict (scaler model : List ℚ → Option (List ℚ))
    (inputs : String → Option ℚ) : Except PredictError PredictionResult :=
  match assembleRow inputs with
  | .error e => .error e
  | .ok row =>
    match scaler row with
    | none => .error .inferenceError
    | some xScaled =>
      match model xScaled with
      | none => .error .inferenceError
      | some out =>
        match out.head? with
        | none => .error .indexError
        | some pred =>
          .ok { value := pred, level := (power_level_and_color pred).1,
                color := (power_level_and_color pred).2 }

/-- The full button handler of app.py lines 128-140: on success the scalar
is written to `st.session_state.pred` (line 137); on any failure the
exception propagates before the assignment, so the stored state is
unchanged. -/
def handlePredict (scaler model : List ℚ → Option (List ℚ))
    (inputs : String → Option ℚ) (s : Option ℚ) :
    Except PredictError PredictionResult × Option ℚ :=
  match predict scaler model inputs with
  | .ok r => (.ok r, some r.value)
  | .error e => (.error e, s)

/-- A concrete input mapping holding all 9 feature keys, used by witnesses. -/
def fullInputs : String → Option ℚ := fun f =>
  if f ∈ FEATURES then some 7 else none

/-- A concrete input mapping missing the `temperature` key. -/
def inputsNoTemp : String → Option ℚ := fun f =>
  if f = "temperature" then none else fullInputs f

/-- The identity scaler used by the mocked-artifact claims. -/
def idScaler : List ℚ → Option (List ℚ) := fun r => some r

/-- The mocked model that returns the constant 2500. -/
def constModel : List ℚ → Option (List ℚ) := fun _ => some [2500]

/-- Claim C1: the classifier returns exactly one of the three levels with
its paired color, according to the fixed thresholds, and the four boundary
scalars 1999.999, 2000.0, 3999.999 and 4000.0 map to Low, Moderate,
Moderate and High respectively. -/
theorem power_level_thresholds (pred : ℚ) :
    (pred < 2000 → power_level_and_color pred = ("Low", "#ff6b6b")) ∧
    (2000 ≤ pred → pred < 4000 →
      power_level_and_color pred = ("Moderate", "#f4c542")) ∧
    (4000 ≤ pred → power_level_and_color pred = ("High", "#4cd137")) ∧
    (power_level_and_color pred = ("Low", "#ff6b6b") ∨
      power_level_and_color pred = ("Moderate", "#f4c542") ∨
      power_level_and_color pred = ("High", "#4cd137")) ∧
    power_level_and_color (1999.999 : ℚ) = ("Low", "#ff6b6b") ∧
    power_level_and_color (2000.0 : ℚ) = ("Moderate", "#f4c542") ∧
    power_level_and_color (3999.999 : ℚ) = ("Moderate", "#f4c542") ∧
    power_level_and_color (4000.0 : ℚ) = ("High", "#4cd137") := by
  refine ⟨?_, ?_, ?_, ?_, by norm_num [power_level_and_color],
    by norm_num [power_level_and_color], by norm_num [power_level_and_color],
    by norm_num [power_level_and_color]⟩
  · intro h
    simp [power_level_and_color, h]
  · intro h₁ h₂
    simp [power_level_and_color, not_lt.mpr h₁, h₂]
  · intro h
    simp [power_level_and_color, not_lt.mpr h, not_lt.mpr (by linarith : (2000 : ℚ) ≤ pred)]
  · unfold power_level_and_color
    split
    · exact Or.inl rfl
    · split
      · exact Or.inr (Or.inl rfl)
      · exact Or.inr (Or.inr rfl)

/-- Witness for C1: the theorem instantiated at the concrete scalar 0,
discharging the threshold hypothesis there. -/
theorem power_level_thresholds_witness :
    power_level_and_color 0 = ("Low", "#ff6b6b") :=
  (power_level_thresholds 0).1 (by norm_num)

/-- Claim C8: the classification is monotone in the scalar under the
order Low < Moderate < High. -/
theorem power_level_monotone (a b : ℚ) (hab : a ≤ b) :
    levelRank (power_level_and_color a).1 ≤
      levelRank (power_level_and_color b).1 := by
  unfold power_level_and_color
  split
  · simp [levelRank]
  · split
    · rename_i h2000 _
      split
      · exact absurd (lt_of_le_of_lt hab (by assumption)) h2000
      · split
        · simp [levelRank]
        · simp [levelRank]
    · rename_i h2000 h4000
      split
      · exact absurd (lt_of_le_of_lt hab (by assumption)) h2000
      · split
        · exact absurd (lt_of_le_of_lt hab (by assumption)) h4000
        · simp [levelRank]

/-- Witness for C8: monotonicity applied at the concrete pair 0 ≤ 5000. -/
theorem power_level_monotone_witness :
    levelRank (power_level_and_color 0).1 ≤
      levelRank (power_level_and_color 5000).1 :=
  power_level_monotone 0 5000 (by norm_num)

/-- Claim C9: the classifier has no lower bound: every scalar strictly
below 2000, including zero and negative values, is classified Low with
color #ff6b6b; nothing clamps or rejects negative predictions. -/
theorem power_level_no_lower_bound (pred : ℚ) (h : pred < 2000) :
    power_level_and_color pred = ("Low", "#ff6b6b") := by
  simp [power_level_and_color, h]

/-- Witness for C9: the theorem applied at the concrete negative scalar
-500. -/
theorem power_level_no_lower_bound_witness :
    power_level_and_color (-500) = ("Low", "#ff6b6b") :=
  power_level_no_lower_bound (-500) (by norm_num)

/-- A successful row collection binds each feature name to its input value,
pointwise in order. -/
theorem collectRow_ok_forall₂ (inputs : String → Option ℚ) :
    ∀ (l : List String) (row : List ℚ), collectRow inputs l = .ok row →
      List.Forall₂ (fun f v => inputs f = some v) l row := by
  intro l
  induction l with
  | nil =>
    intro row h
    simp only [collectRow] at h
    cases h
    exact List.Forall₂.nil
  | cons f fs ih =>
    intro row h
    simp only [collectRow, lookupFeature] at h
    cases hf : inputs f with
    | none => rw [hf] at h; cases h
    | some v =>
      rw [hf] at h
      cases hrest : collectRow inputs fs with
      | error e => rw [hrest] at h; cases h
      | ok vs =>
        rw [hrest] at h
        cases h
        exact List.Forall₂.cons hf (ih vs hrest)

/-- If every feature name in the list is bound in the input mapping, row
collection succeeds. -/
theorem collectRow_ok_of_all_present (inputs : String → Option ℚ) :
    ∀ (l : List String), (∀ f ∈ l, (inputs f).isSome) →
      ∃ row, collectRow inputs l = .ok row := by
  intro l
  induction l with
  | nil => intro _; exact ⟨[], rfl⟩
  | cons f fs ih =>
    intro hall
    have hf : (inputs f).isSome := hall f (List.mem_cons_self f fs)
    cases hfv : inputs f with
    | none => rw [hfv] at hf; cases hf
    | some v =>
      obtain ⟨vs, hvs⟩ := ih (fun g hg => hall g (List.mem_cons_of_mem f hg))
      exact ⟨v :: vs, by simp [collectRow, lookupFeature, hfv, hvs]⟩

/-- If some feature name in the list is unbound, row collection fails with
a missing-feature error. -/
theorem collectRow_error_of_missing (inputs : String → Option ℚ) :
    ∀ (l : List String), (∃ f ∈ l, inputs f = none) →
      ∃ k, collectRow inputs l = .error (.missingFeature k) := by
  intro l
  induction l with
  | nil => rintro ⟨f, hf, _⟩; cases hf
  | cons g gs ih =>
    rintro ⟨f, hf, hnone⟩
    cases hgv : inputs g with
    | none => exact ⟨g, by simp [collectRow, lookupFeature, hgv]⟩
    | some v =>
      rcases List.mem_cons.mp hf with rfl | hf2
      · rw [hgv] at hnone; cases hnone
      · obtain ⟨k, hk⟩ := ih ⟨f, hf2, hnone⟩
        exact ⟨k, by simp [collectRow, lookupFeature, hgv, hk]⟩

/-- Every error produced by row collection is a missing-feature error. -/
theorem collectRow_error_shape (inputs : String → Option ℚ) :
    ∀ (l : List String) (e : PredictError),
      collectRow inputs l = .error e → ∃ k, e = .missingFeature k := by
  intro l
  induction l with
  | nil => intro e h; simp only [collectRow] at h; cases h
  | cons f fs ih =>
    intro e h
    simp only [collectRow, lookupFeature] at h
    cases hf : inputs f with
    | none => rw [hf] at h; cases h; exact ⟨f, rfl⟩
    | some v =>
      rw [hf] at h
      cases hrest : collectRow inputs fs with
      | error e2 => rw [hrest] at h; cases h; exact ih _ hrest
      | ok vs => rw [hrest] at h; cases h

/-- Claim C2: the vector handed to the scaler reads the inputs in exactly
the fixed `FEATURES` order: it has one entry per feature name and its
i-th element is the input value bound to the i-th feature name. -/
theorem assembleRow_feature_order (inputs : String → Option ℚ)
    (row : List ℚ) (h : assembleRow inputs = .ok row) :
    row.length = FEATURES.length ∧
    ∀ (i : ℕ) (h₁ : i < FEATURES.length) (h₂ : i < row.length),
      inputs (FEATURES.get ⟨i, h₁⟩) = some (row.get ⟨i, h₂⟩) := by
  have hf := collectRow_ok_forall₂ inputs FEATURES row h
  have hg := List.forall₂_iff_get.mp hf
  exact ⟨hg.1.symm, hg.2⟩

/-- Witness for C2: the theorem instantiated at a concrete 9-key input,
with the assembly evaluated. -/
theorem assembleRow_feature_order_witness :
    (List.replicate 9 (7 : ℚ)).length = FEATURES.length ∧
    ∀ (i : ℕ) (h₁ : i < FEATURES.length)
      (h₂ : i < (List.replicate 9 (7 : ℚ)).length),
      fullInputs (FEATURES.get ⟨i, h₁⟩) =
        some ((List.replicate 9 (7 : ℚ)).get ⟨i, h₂⟩) :=
  assembleRow_feature_order fullInputs (List.replicate 9 (7 : ℚ)) (by rfl)

/-- Claim C3: omitting any required feature key from the input makes the
handler fail with a missing-feature error and leaves the stored prediction
unchanged; no result is produced. -/
theorem handlePredict_missing_feature
    (scaler model : List ℚ → Option (List ℚ)) (inputs : String → Option ℚ)
    (s : Option ℚ) (h : ∃ f ∈ FEATURES, inputs f = none) :
    ∃ k, handlePredict scaler model inputs s =
      (.error (.missingFeature k), s) := by
  obtain ⟨k, hk⟩ := collectRow_error_of_missing inputs FEATURES h
  exact ⟨k, by simp [handlePredict, predict, assembleRow, hk]⟩

/-- Witness for C3: the theorem applied to the concrete input missing the
`temperature` key. -/
theorem handlePredict_missing_feature_witness :
    ∃ k, handlePredict idScaler constModel inputsNoTemp none =
      (.error (.missingFeature k), none) :=
  handlePredict_missing_feature idScaler constModel inputsNoTemp none
    ⟨"temperature", by decide, rfl⟩

/-- Claim C7: with the identity scaler and the constant-2500 model, any
9-key input predicts the value 2500, level Moderate, color #f4c542. -/
theorem predict_mocked_constant (inputs : String → Option ℚ)
    (h : ∀ f ∈ FEATURES, (inputs f).isSome) :
    predict idScaler constModel inputs =
      .ok { value := 2500, level := "Moderate", color := "#f4c542" } := by
  obtain ⟨row, hrow⟩ := collectRow_ok_of_all_present inputs FEATURES h
  have hcls : power_level_and_color 2500 = ("Moderate", "#f4c542") := by
    norm_num [power_level_and_color]
  simp [predict, assembleRow, hrow, idScaler, constModel, hcls]

/-- Witness for C7: the theorem applied to the concrete full input map. -/
theorem predict_mocked_constant_witness :
    predict idScaler constModel fullInputs =
      .ok { value := 2500, level := "Moderate", color := "#f4c542" } :=
  predict_mocked_constant fullInputs (by decide)

/-- Claim C4: if the scaler or the model raises on an assembled row, the
handler fails with an inference error, produces no partially constructed
result, and leaves the stored prediction state unchanged. -/
theorem handlePredict_inference_error
    (scaler model : List ℚ → Option (List ℚ)) (inputs : String → Option ℚ)
    (s : Option ℚ) (row : List ℚ) (hrow : assembleRow inputs = .ok row)
    (hfail : scaler row = none ∨
      ∃ xs, scaler row = some xs ∧ model xs = none) :
    handlePredict scaler model inputs s = (.error .inferenceError, s) := by
  rcases hfail with hsc | ⟨xs, hsc, hm⟩
  · simp [handlePredict, predict, hrow, hsc]
  · simp [handlePredict, predict, hrow, hsc, hm]

/-- Witness for C4: the theorem applied with a scaler that always raises,
on the concrete full input map and a concrete stored state. -/
theorem handlePredict_inference_error_witness :
    handlePredict (fun _ => none) constModel fullInputs (some 3) =
      (.error .inferenceError, some 3) :=
  handlePredict_inference_error (fun _ => none) constModel fullInputs
    (some 3) (List.replicate 9 7) (by rfl) (Or.inl rfl)

/-- Evaluation of predict at the mocked artifacts and the concrete full
input map, shared by the state-effect results. -/
theorem predict_const_eval :
    predict idScaler constModel fullInputs =
      .ok { value := 2500, level := "Moderate", color := "#f4c542" } := by
  obtain ⟨row, hrow⟩ :=
    collectRow_ok_of_all_present fullInputs FEATURES (by decide)
  have hcls : power_level_and_color 2500 = ("Moderate", "#f4c542") := by
    norm_num [power_level_and_color]
  simp [predict, assembleRow, hrow, idScaler, constModel, hcls]

/-- Counterexample to claim C5: a successful predict click does mutate
ambient state: with identity scaling and the constant-2500 model, the
stored prediction changes from `none` to `some 2500` (app.py line 137
writes `st.session_state.pred`). -/
theorem handlePredict_mutates_state :
    (handlePredict idScaler constModel fullInputs none).2 = some 2500 ∧
    some (2500 : ℚ) ≠ none := by
  constructor
  · simp [handlePredict, predict_const_eval]
  · simp

/-- Amended claim C5: the returned result is a pure function of the input
mapping and the two artifacts (independent of ambient state), and the only
side effect is writing the returned scalar to the stored prediction on
success; on failure all state is unchanged. -/
theorem handlePredict_state_effect
    (scaler model : List ℚ → Option (List ℚ)) (inputs : String → Option ℚ)
    (s t : Option ℚ) :
    (handlePredict scaler model inputs s).1 =
      (handlePredict scaler model inputs t).1 ∧
    (∀ r, (handlePredict scaler model inputs s).1 = .ok r →
      (handlePredict scaler model inputs s).2 = some r.value) ∧
    (∀ e, (handlePredict scaler model inputs s).1 = .error e →
      (handlePredict scaler model inputs s).2 = s) := by
  cases hp : predict scaler model inputs with
  | ok r =>
    refine ⟨by simp [handlePredict, hp], ?_, ?_⟩
    · intro r2 h2
      simp only [handlePredict, hp] at h2 ⊢
      cases h2
      rfl
    · intro e h2
      simp only [handlePredict, hp] at h2
      cases h2
  | error e =>
    refine ⟨by simp [handlePredict, hp], ?_, ?_⟩
    · intro r2 h2
      simp only [handlePredict, hp] at h2
      cases h2
    · intro e2 h2
      simp [handlePredict, hp]

/-- Witness for the amended C5: at the concrete mocked artifacts, the
state written on success is exactly the returned scalar. -/
theorem handlePredict_state_effect_witness :
    (handlePredict idScaler constModel fullInputs none).2 =
      some (2500 : ℚ) :=
  (handlePredict_state_effect idScaler constModel fullInputs none
      (some 1)).2.1
    { value := 2500, level := "Moderate", color := "#f4c542" }
    (by simp [handlePredict, predict_const_eval])

/-- Claim C6: the handler is deterministic and idempotent: the result is
independent of the stored state, and running the handler a second time
from the state the first run produced returns the identical result and
leaves that state fixed — no hidden state accumulates. -/
theorem handlePredict_idempotent
    (scaler model : List ℚ → Option (List ℚ)) (inputs : String → Option ℚ)
    (s : Option ℚ) :
    (handlePredict scaler model inputs
        (handlePredict scaler model inputs s).2).1 =
      (handlePredict scaler model inputs s).1 ∧
    (handlePredict scaler model inputs
        (handlePredict scaler model inputs s).2).2 =
      (handlePredict scaler model inputs s).2 := by
  unfold handlePredict
  cases predict scaler model inputs with
  | ok r => exact ⟨rfl, rfl⟩
  | error e => exact ⟨rfl, rfl⟩

/-- Once the row is assembled, predict is the scale-infer-index-classify
pipeline on that row. -/
theorem predict_eq_of_row (scaler model : List ℚ → Option (List ℚ))
    (inputs : String → Option ℚ) (row : List ℚ)
    (hrow : assembleRow inputs = .ok row) :
    predict scaler model inputs =
      match scaler row with
      | none => .error .inferenceError
      | some xScaled =>
        match model xScaled with
        | none => .error .inferenceError
        | some out =>
          match out.head? with
          | none => .error .indexError
          | some pred =>
            .ok { value := pred, level := (power_level_and_color pred).1,
                  color := (power_level_and_color pred).2 } := by
  unfold predict
  rw [hrow]

/-- Claim C10: the scalar is the first element of the model output: under
the precondition that the model never returns an empty sequence, the
out-of-bounds branch of the `[0]` indexing is unreachable, and every
successful result's value is the head of the model's output. -/
theorem predict_uses_head (scaler model : List ℚ → Option (List ℚ))
    (inputs : String → Option ℚ)
    (hm : ∀ xs out, model xs = some out → out ≠ []) :
    predict scaler model inputs ≠ .error .indexError ∧
    ∀ r, predict scaler model inputs = .ok r →
      ∃ row xs out, assembleRow inputs = .ok row ∧ scaler row = some xs ∧
        model xs = some out ∧ out.head? = some r.value := by
  constructor
  · intro hcontra
    cases hrow : assembleRow inputs with
    | error e =>
      obtain ⟨k, hk⟩ := collectRow_error_shape inputs FEATURES e hrow
      unfold predict at hcontra
      rw [hrow, hk] at hcontra
      cases hcontra
    | ok row =>
      rw [predict_eq_of_row scaler model inputs row hrow] at hcontra
      cases hsc : scaler row with
      | none => simp only [hsc] at hcontra; cases hcontra
      | some xs =>
        cases hmo : model xs with
        | none => simp only [hsc, hmo] at hcontra; cases hcontra
        | some out =>
          cases hh : out.head? with
          | none => exact hm xs out hmo (List.head?_eq_none_iff.mp hh)
          | some v => simp only [hsc, hmo, hh] at hcontra; cases hcontra
  · intro r hr
    cases hrow : assembleRow inputs with
    | error e =>
      unfold predict at hr
      rw [hrow] at hr
      cases hr
    | ok row =>
      rw [predict_eq_of_row scaler model inputs row hrow] at hr
      cases hsc : scaler row with
      | none => simp only [hsc] at hr; cases hr
      | some xs =>
        cases hmo : model xs with
        | none => simp only [hsc, hmo] at hr; cases hr
        | some out =>
          cases hh : out.head? with
          | none => simp only [hsc, hmo, hh] at hr; cases hr
          | some v =>
            simp only [hsc, hmo, hh] at hr
            refine ⟨row, xs, out, rfl, hsc, hmo, ?_⟩
            cases hr
            exact hh

/-- Witness for C10: the precondition discharged for the concrete
constant model. -/
theorem predict_uses_head_witness :
    predict idScaler constModel fullInputs ≠ .error .indexError :=
  (predict_uses_head idScaler constModel fullInputs
    (fun xs out h => by
      simp only [constModel, Option.some.injEq] at h
      subst h
      simp)).1
